import Mathlib

/-!
Verification of the location-validation and landmark-ranking service
(`main.go`).  The Go code is shallowly embedded: pure string processing is
translated to computable Lean functions; the external Google-Maps
collaborator calls (geocoding, nearby search) are modelled by passing their
results (or a transport error) as `Except String` arguments; `float64`
arithmetic is modelled over `ℝ`.
-/

/-- Struct `Location` mirrors the Go struct `Location` (`lat`, `lng` as `float64`). -/
structure Location where
  lat : ℝ
  lng : ℝ

/-- One entry of `maps.GeocodingResult.AddressComponents`: a long name plus
its list of semantic type tags. -/
structure AddressComponent where
  longName : String
  types : List String
deriving DecidableEq

/-- The fields of a `maps.GeocodingResult` read by the service:
`FormattedAddress`, `AddressComponents` and `Geometry.Location`. -/
structure GeocodingResult where
  formattedAddress : String
  addressComponents : List AddressComponent
  location : Location

/-- The fields of a nearby-search result (`maps.PlacesSearchResult`) read by
`GetNearbyLandmarks`.  `UserRatingsTotal` is a Go `int`, modelled as `ℤ`;
`Rating` (a `float32` immediately widened to `float64`) is modelled as `ℝ`. -/
structure Place where
  name : String
  vicinity : String
  placeID : String
  types : List String
  rating : ℝ
  userRatingsTotal : ℤ
  location : Location

/-- Go struct `Details` of the validation response. -/
structure Details where
  pinCode : String
  city : String
  state : String
  country : String
  formattedAddress : String
deriving DecidableEq

/-- Go struct `ValidationResponse`.  The `omitempty` pointer `*Details`
becomes `Option Details`; absent `Suggestions` becomes `[]`. -/
structure ValidationResponse where
  valid : Bool
  message : String
  suggestions : List String
  details : Option Details
deriving DecidableEq

/-- Go struct `Landmark` of the landmarks response. -/
structure Landmark where
  name : String
  address : String
  distance : ℝ
  placeID : String
  types : List String
  location : Location
  rating : ℝ
  userRatings : ℤ
  popScore : ℝ

/-- Go struct `LandmarksResponse`.  A `nil` landmarks slice becomes `[]` and
the zero-value `Location{}` becomes `⟨0, 0⟩`. -/
structure LandmarksResponse where
  success : Bool
  message : String
  landmarks : List Landmark
  location : Location

/-- The three extraction variables `foundCity`, `foundState`, `foundCountry`
declared before the result loop of `ValidatePinCodeWithCity`. -/
structure ExtractState where
  city : String
  state : String
  country : String
deriving DecidableEq

/-- Contiguous-sublist check on character lists: `subListOf sub hay` is true
iff `sub` occurs contiguously inside `hay` (the semantics of Go's
`strings.Contains(hay, sub)`). -/
def subListOf (sub : List Char) : List Char → Bool
  | [] => sub.isEmpty
  | c :: rest => sub.isPrefixOf (c :: rest) || subListOf sub rest

/-- Go `strings.Contains(s, sub)`. -/
def strContains (s sub : String) : Bool :=
  subListOf sub.data s.data

/-- The match condition of the validation loop:
`strings.Contains(foundCity, city) || strings.Contains(city, foundCity)`. -/
def cityMatch (found claimed : String) : Bool :=
  strContains found claimed || strContains claimed found

/-- Drop whitespace from both ends of a character list. -/
def trimChars (l : List Char) : List Char :=
  ((l.dropWhile Char.isWhitespace).reverse.dropWhile Char.isWhitespace).reverse

/-- Go `strings.TrimSpace` (modelled on the characters of the string). -/
def strTrim (s : String) : String :=
  ⟨trimChars s.data⟩

/-- Go `strings.ToLower` (ASCII case folding, character by character). -/
def strToLower (s : String) : String :=
  ⟨s.data.map Char.toLower⟩

/-- One `switch typ` step of the component-type loop in
`ValidatePinCodeWithCity` (main.go lines 126-137). -/
def applyType (s : ExtractState) (longName typ : String) : ExtractState :=
  if typ = "locality" ∨ typ = "administrative_area_level_2" then
    if s.city = "" then { s with city := strToLower longName } else s
  else if typ = "administrative_area_level_1" then
    { s with state := longName }
  else if typ = "country" then
    { s with country := longName }
  else s

/-- The `for _, typ := range component.Types` loop. -/
def applyComponent (s : ExtractState) (comp : AddressComponent) : ExtractState :=
  comp.types.foldl (fun acc t => applyType acc comp.longName t) s

/-- The `for _, component := range result.AddressComponents` loop. -/
def applyResult (s : ExtractState) (r : GeocodingResult) : ExtractState :=
  r.addressComponents.foldl applyComponent s

/-- The extraction part of the result loop, run over a whole list of results
(the state is carried from one result to the next, never reset). -/
def extractAll (s : ExtractState) (rs : List GeocodingResult) : ExtractState :=
  rs.foldl applyResult s

/-- The value of the `formattedAddress` variable after scanning `rs`
(it is overwritten at the top of every result iteration). -/
def lastFA (fa : String) (rs : List GeocodingResult) : String :=
  rs.foldl (fun _ r => r.formattedAddress) fa

/-- The `for _, result := range results` loop of `ValidatePinCodeWithCity`
(main.go lines 123-173), including the fall-through mismatch response.
`claimed` is the already trimmed-and-lowercased city, `pinCode` the trimmed
PIN code, `s` the extraction state and `fa` the `formattedAddress`
variable. -/
def validateLoop (claimed pinCode : String) :
    ExtractState → String → List GeocodingResult → ValidationResponse
  | s, fa, [] =>
    { valid := false
      message := "PIN code " ++ pinCode ++ " does not belong to " ++ claimed
      suggestions := if s.city = "" then [] else [s.city]
      details := some ⟨pinCode, s.city, s.state, s.country, fa⟩ }
  | s, _, r :: rest =>
    let s' := applyResult s r
    if cityMatch s'.city claimed then
      { valid := true
        message := "PIN code and city match successfully"
        suggestions := []
        details := some ⟨pinCode, s'.city, s'.state, s'.country, r.formattedAddress⟩ }
    else validateLoop claimed pinCode s' r.formattedAddress rest

/-- Method `ValidatePinCodeWithCity` (main.go lines 87-174).  The geocoding call is
modelled by the `geo` argument: `.error e` for a transport failure of
`s.mapsClient.Geocode`, `.ok results` for its result list.  The Go method
returns `(nil, err)` exactly when geocoding fails, modelled as `.error`. -/
def ValidatePinCodeWithCity (pinCode city : String)
    (geo : Except String (List GeocodingResult)) :
    Except String ValidationResponse :=
  let p := strTrim pinCode
  let c := strToLower (strTrim city)
  if p = "" ∨ c = "" then
    .ok { valid := false, message := "PIN code and city are required",
          suggestions := [], details := none }
  else
    match geo with
    | .error e => .error ("geocoding failed: " ++ e)
    | .ok results =>
      if results.isEmpty then
        .ok { valid := false, message := "Invalid PIN code: No location found",
              suggestions := [], details := none }
      else
        .ok (validateLoop c p ⟨"", "", ""⟩ "" results)

/-- Go `math.Atan2(y, x)` over `ℝ` (the only calls in the source have both
arguments of the form `math.Sqrt _`, hence non-negative). -/
noncomputable def atan2 (y x : ℝ) : ℝ :=
  if 0 < x then Real.arctan (y / x)
  else if x < 0 then
    (if 0 ≤ y then Real.arctan (y / x) + Real.pi else Real.arctan (y / x) - Real.pi)
  else
    (if 0 < y then Real.pi / 2 else if y < 0 then -(Real.pi / 2) else 0)

/-- Function `calculateDistance` (main.go lines 342-359): Haversine distance in
meters, with the source's literal `pi = 3.14159265359`. -/
noncomputable def calculateDistance (lat1 lon1 lat2 lon2 : ℝ) : ℝ :=
  let earthRadius : ℝ := 6371000
  let pi : ℝ := 3.14159265359
  let lat1Rad := lat1 * (pi / 180)
  let lat2Rad := lat2 * (pi / 180)
  let deltaLat := (lat2 - lat1) * (pi / 180)
  let deltaLon := (lon2 - lon1) * (pi / 180)
  let sinDeltaLat := Real.sin (deltaLat / 2)
  let sinDeltaLon := Real.sin (deltaLon / 2)
  let a := sinDeltaLat * sinDeltaLat +
    Real.cos lat1Rad * Real.cos lat2Rad * sinDeltaLon * sinDeltaLon
  let c := 2 * atan2 (Real.sqrt a) (Real.sqrt (1 - a))
  earthRadius * c

/-- The popularity score of `GetNearbyLandmarks` (main.go lines 281-286):
`reviewScore / distancePenalty` with
`reviewScore = rating * log10(userRatingsTotal + 1)` and
`distancePenalty = 1 + distance/1000`. -/
noncomputable def popScore (rating : ℝ) (n : ℤ) (distance : ℝ) : ℝ :=
  rating * Real.logb 10 ((n : ℝ) + 1) / (1 + distance / 1000)

/-- The candidate loop of `GetNearbyLandmarks` (main.go lines 269-307):
compute the distance, skip candidates with `distance < 10` or
`UserRatingsTotal == 0`, and pair the built `Landmark` with its score. -/
noncomputable def buildScored (loc : Location) : List Place → List (Landmark × ℝ)
  | [] => []
  | p :: rest =>
    let d := calculateDistance loc.lat loc.lng p.location.lat p.location.lng
    if d < 10 ∨ p.userRatingsTotal = 0 then buildScored loc rest
    else
      (⟨p.name, p.vicinity, d, p.placeID, p.types, ⟨p.location.lat, p.location.lng⟩,
         p.rating, p.userRatingsTotal, popScore p.rating p.userRatingsTotal d⟩,
       popScore p.rating p.userRatingsTotal d) :: buildScored loc rest

/-- The comparator of the `sort.Slice` call (main.go lines 309-312), as the
total order "score at least as large": the sorted list is non-increasing in
the stored score. -/
def byScoreDesc (a b : Landmark × ℝ) : Prop := b.2 ≤ a.2

noncomputable instance : DecidableRel byScoreDesc :=
  fun a b => inferInstanceAs (Decidable (b.2 ≤ a.2))

instance : IsTotal (Landmark × ℝ) byScoreDesc :=
  ⟨fun a b => le_total b.2 a.2⟩

instance : IsTrans (Landmark × ℝ) byScoreDesc :=
  ⟨fun _ _ _ h1 h2 => le_trans h2 h1⟩

/-- Sorting plus top-5 selection of `GetNearbyLandmarks` (main.go lines
309-323).  Go's unstable `sort.Slice` is modelled by `List.insertionSort`
with the same comparator (the source fixes no tie-break order). -/
noncomputable def rankLandmarks (loc : Location) (places : List Place) : List Landmark :=
  let scored := buildScored loc places
  let sorted := List.insertionSort byScoreDesc scored
  let maxLandmarks := if sorted.length < 5 then sorted.length else 5
  (sorted.take maxLandmarks).map Prod.fst

/-- The message telling the caller that no landmark survived. -/
def noLandmarksMsg : String :=
  "No landmarks found in the specified area. Try increasing the search radius."

/-- Response assembly of `GetNearbyLandmarks` after the location is resolved
(main.go lines 249-338): the nearby search (an external call, modelled by
the `nearby` argument), ranking, and the message selection. -/
noncomputable def landmarksFrom (loc : Location) (locationAddress : String)
    (nearby : Except String (List Place)) : Except String LandmarksResponse :=
  match nearby with
  | .error e => .error ("nearby search failed: " ++ e)
  | .ok places =>
    let landmarks := rankLandmarks loc places
    let message :=
      if landmarks.length = 0 then noLandmarksMsg
      else "Found " ++ toString landmarks.length ++ " landmarks near " ++ locationAddress
    .ok { success := true, message := message, landmarks := landmarks,
          location := ⟨loc.lat, loc.lng⟩ }

/-- Method `GetNearbyLandmarks` (main.go lines 178-339).  The three possible
geocoding calls and the nearby search are modelled by `geoAddress` (geocode
of the street address), `geoPin` (geocode of the PIN code inside the
validator), `geoLoc` (geocode of `"pinCode, city"`) and `nearby`; a branch
that never performs a given call simply ignores that argument. -/
noncomputable def GetNearbyLandmarks (pinCode city address : String) (radius : ℝ)
    (geoAddress geoPin geoLoc : Except String (List GeocodingResult))
    (nearby : Except String (List Place)) : Except String LandmarksResponse :=
  if address ≠ "" then
    match geoAddress with
    | .error e => .error ("geocoding address failed: " ++ e)
    | .ok [] =>
      .ok { success := false, message := "Could not find the specified address",
            landmarks := [], location := ⟨0, 0⟩ }
    | .ok (r :: _) =>
      let _radius := if radius = 0 then (1000 : ℝ) else radius
      landmarksFrom r.location r.formattedAddress nearby
  else if pinCode ≠ "" ∧ city ≠ "" then
    match ValidatePinCodeWithCity pinCode city geoPin with
    | .error e => .error e
    | .ok validation =>
      if validation.valid = false then
        .ok { success := false, message := validation.message,
              landmarks := [], location := ⟨0, 0⟩ }
      else
        match geoLoc with
        | .error e => .error ("geocoding failed: " ++ e)
        | .ok [] =>
          .ok { success := false, message := "Could not find location coordinates",
                landmarks := [], location := ⟨0, 0⟩ }
        | .ok (r :: _) =>
          let _radius := if radius = 0 then (1000 : ℝ) else radius
          landmarksFrom r.location r.formattedAddress nearby
  else
    .ok { success := false,
          message := "Please provide either an address OR both pin code and city",
          landmarks := [], location := ⟨0, 0⟩ }

/-- Tags handled by the first `switch` case of the extraction loop. -/
def isCityTag (t : String) : Bool :=
  t == "locality" || t == "administrative_area_level_2"

/-- The `(type, longName)` pairs scanned by the inner type loop for one
address component, in scan order. -/
def componentPairs (c : AddressComponent) : List (String × String) :=
  c.types.map (fun t => (t, c.longName))

/-- All `(type, longName)` pairs scanned for one geocoding result. -/
def resultPairs (r : GeocodingResult) : List (String × String) :=
  (r.addressComponents.map componentPairs).flatten

/-- All `(type, longName)` pairs scanned for a list of geocoding results. -/
def typePairs (rs : List GeocodingResult) : List (String × String) :=
  (rs.map resultPairs).flatten

/-- Step function view of `applyType` on on `(type, longName)` pairs. -/
def updPair (s : ExtractState) (p : String × String) : ExtractState :=
  applyType s p.2 p.1

/-- A latitude chosen so that the source's Haversine (with its literal
`pi = 3.14159265359`) evaluates in closed form: the delta-latitude in
"radians" is exactly `Real.pi`. -/
noncomputable def latW : ℝ := 180 * Real.pi / 3.14159265359

/-- A concrete nearby-search candidate at latitude `latW`, longitude 0,
4 stars, 7 reviews. -/
noncomputable def placeW : Place :=
  ⟨"Temple", "near the river", "pid1", ["point_of_interest"], 4, 7, ⟨latW, 0⟩⟩

/-- The distance computed for `placeW` from the query point `(0, 0)`. -/
noncomputable def dW : ℝ := calculateDistance 0 0 latW 0

/-- The landmark that `GetNearbyLandmarks` builds from `placeW`. -/
noncomputable def lmW : Landmark :=
  ⟨"Temple", "near the river", dW, "pid1", ["point_of_interest"], ⟨latW, 0⟩,
   4, 7, popScore 4 7 dW⟩

lemma atan2_nonneg (y x : ℝ) (hy : 0 ≤ y) : 0 ≤ atan2 y x := by
  unfold atan2
  by_cases h1 : 0 < x
  · rw [if_pos h1]
    have hq : 0 ≤ y / x := div_nonneg hy h1.le
    have := Real.arctan_strictMono.monotone hq
    simpa [Real.arctan_zero] using this
  · rw [if_neg h1]
    by_cases h2 : x < 0
    · rw [if_pos h2, if_pos hy]
      nlinarith [Real.neg_pi_div_two_lt_arctan (y / x), Real.pi_pos]
    · rw [if_neg h2]
      by_cases h4 : 0 < y
      · rw [if_pos h4]
        linarith [Real.pi_pos]
      · rw [if_neg h4, if_neg (not_lt.mpr hy)]

lemma calculateDistance_nonneg (lat1 lon1 lat2 lon2 : ℝ) :
    0 ≤ calculateDistance lat1 lon1 lat2 lon2 := by
  simp only [calculateDistance]
  exact mul_nonneg (by norm_num)
    (mul_nonneg (by norm_num) (atan2_nonneg _ _ (Real.sqrt_nonneg _)))

lemma calculateDistance_comm (lat1 lon1 lat2 lon2 : ℝ) :
    calculateDistance lat1 lon1 lat2 lon2 = calculateDistance lat2 lon2 lat1 lon1 := by
  have ha : ∀ p q u v : ℝ,
      Real.sin ((p - q) * (3.14159265359 / 180) / 2) *
          Real.sin ((p - q) * (3.14159265359 / 180) / 2) +
        Real.cos (q * (3.14159265359 / 180)) * Real.cos (p * (3.14159265359 / 180)) *
          Real.sin ((u - v) * (3.14159265359 / 180) / 2) *
          Real.sin ((u - v) * (3.14159265359 / 180) / 2) =
      Real.sin ((q - p) * (3.14159265359 / 180) / 2) *
          Real.sin ((q - p) * (3.14159265359 / 180) / 2) +
        Real.cos (p * (3.14159265359 / 180)) * Real.cos (q * (3.14159265359 / 180)) *
          Real.sin ((v - u) * (3.14159265359 / 180) / 2) *
          Real.sin ((v - u) * (3.14159265359 / 180) / 2) := by
    intro p q u v
    have h1 : (p - q) * (3.14159265359 / 180) / 2 =
        -((q - p) * (3.14159265359 / 180) / 2) := by ring
    have h2 : (u - v) * (3.14159265359 / 180) / 2 =
        -((v - u) * (3.14159265359 / 180) / 2) := by ring
    rw [h1, h2, Real.sin_neg, Real.sin_neg]
    ring
  simp only [calculateDistance]
  rw [ha lat2 lat1 lon2 lon1]

lemma calculateDistance_self (lat lon : ℝ) :
    calculateDistance lat lon lat lon = 0 := by
  simp [calculateDistance, atan2, Real.sin_zero, Real.sqrt_zero, Real.sqrt_one,
    Real.arctan_zero]

/-- C5: for all coordinate pairs `A`, `B`, `calculateDistance A B` equals
`calculateDistance B A`; `calculateDistance A A = 0` exactly; and the result
is always non-negative. -/
theorem calculateDistance_symm_self_nonneg :
    (∀ lat1 lon1 lat2 lon2 : ℝ,
        calculateDistance lat1 lon1 lat2 lon2 = calculateDistance lat2 lon2 lat1 lon1)
  ∧ (∀ lat lon : ℝ, calculateDistance lat lon lat lon = 0)
  ∧ (∀ lat1 lon1 lat2 lon2 : ℝ, 0 ≤ calculateDistance lat1 lon1 lat2 lon2) :=
  ⟨calculateDistance_comm, calculateDistance_self, calculateDistance_nonneg⟩

lemma logTerm_nonneg {n : ℤ} (hn : 0 ≤ n) : 0 ≤ Real.logb 10 ((n : ℝ) + 1) := by
  apply Real.logb_nonneg (by norm_num)
  have : (0 : ℝ) ≤ (n : ℝ) := by exact_mod_cast hn
  linarith

lemma penalty_pos {d : ℝ} (hd : 0 ≤ d) : 0 < 1 + d / 1000 := by linarith

/-- C4: holding the other two arguments fixed, `popScore` is monotone
non-decreasing in the rating (on `[0, 5]`), monotone non-decreasing in the
review count (over non-negative integers), and monotone non-increasing in
the distance (over non-negative distances). -/
theorem popScore_monotone :
    (∀ (r₁ r₂ : ℝ) (n : ℤ) (d : ℝ), 0 ≤ r₁ → r₁ ≤ r₂ → r₂ ≤ 5 → 0 ≤ n → 0 ≤ d →
      popScore r₁ n d ≤ popScore r₂ n d)
  ∧ (∀ (r : ℝ) (n₁ n₂ : ℤ) (d : ℝ), 0 ≤ r → 0 ≤ n₁ → n₁ ≤ n₂ → 0 ≤ d →
      popScore r n₁ d ≤ popScore r n₂ d)
  ∧ (∀ (r : ℝ) (n : ℤ) (d₁ d₂ : ℝ), 0 ≤ r → 0 ≤ n → 0 ≤ d₁ → d₁ ≤ d₂ →
      popScore r n d₂ ≤ popScore r n d₁) := by
  refine ⟨?_, ?_, ?_⟩
  · intro r₁ r₂ n d _ h12 _ hn hd
    unfold popScore
    apply div_le_div_of_nonneg_right ?_ (penalty_pos hd).le
    exact mul_le_mul_of_nonneg_right h12 (logTerm_nonneg hn)
  · intro r n₁ n₂ d hr hn₁ h12 hd
    unfold popScore
    apply div_le_div_of_nonneg_right ?_ (penalty_pos hd).le
    apply mul_le_mul_of_nonneg_left ?_ hr
    apply Real.logb_le_logb_of_le (by norm_num)
    · have : (0 : ℝ) ≤ (n₁ : ℝ) := by exact_mod_cast hn₁
      linarith
    · have : (n₁ : ℝ) ≤ (n₂ : ℝ) := by exact_mod_cast h12
      linarith
  · intro r n d₁ d₂ hr hn hd₁ h12
    unfold popScore
    apply div_le_div_of_nonneg_left ?_ (penalty_pos hd₁) ?_
    · exact mul_nonneg hr (logTerm_nonneg hn)
    · linarith

lemma mem_buildScored {loc : Location} {places : List Place} {x : Landmark × ℝ}
    (hx : x ∈ buildScored loc places) :
    10 ≤ x.1.distance ∧ x.1.userRatings ≠ 0 ∧ x.1.popScore = x.2 ∧
      x.2 = popScore x.1.rating x.1.userRatings x.1.distance := by
  induction places with
  | nil => simp [buildScored] at hx
  | cons p rest ih =>
    simp only [buildScored] at hx
    by_cases h : calculateDistance loc.lat loc.lng p.location.lat p.location.lng < 10 ∨
        p.userRatingsTotal = 0
    · rw [if_pos h] at hx
      exact ih hx
    · rw [if_neg h] at hx
      rcases List.mem_cons.mp hx with hx1 | hx2
      · push_neg at h
        subst hx1
        exact ⟨h.1, h.2, rfl, rfl⟩
      · exact ih hx2

lemma mem_rankLandmarks {loc : Location} {places : List Place} {l : Landmark}
    (hl : l ∈ rankLandmarks loc places) :
    10 ≤ l.distance ∧ l.userRatings ≠ 0 ∧
      l.popScore = popScore l.rating l.userRatings l.distance := by
  unfold rankLandmarks at hl
  obtain ⟨x, hx, rfl⟩ := List.mem_map.mp hl
  have hx2 : x ∈ List.insertionSort byScoreDesc (buildScored loc places) :=
    List.mem_of_mem_take hx
  have hx3 : x ∈ buildScored loc places :=
    ((List.perm_insertionSort byScoreDesc (buildScored loc places)).mem_iff).mp hx2
  obtain ⟨h1, h2, h3, h4⟩ := mem_buildScored hx3
  exact ⟨h1, h2, h3.trans h4⟩

lemma rankLandmarks_sorted (loc : Location) (places : List Place) :
    (rankLandmarks loc places).Pairwise (fun a b => b.popScore ≤ a.popScore) := by
  have hsorted : (List.insertionSort byScoreDesc (buildScored loc places)).Pairwise byScoreDesc :=
    List.sorted_insertionSort byScoreDesc (buildScored loc places)
  have hinv : ∀ x ∈ List.insertionSort byScoreDesc (buildScored loc places),
      x.1.popScore = x.2 := by
    intro x hx
    exact (mem_buildScored
      (((List.perm_insertionSort byScoreDesc (buildScored loc places)).mem_iff).mp hx)).2.2.1
  have hp : (List.insertionSort byScoreDesc (buildScored loc places)).Pairwise
      (fun a b : Landmark × ℝ => b.1.popScore ≤ a.1.popScore) := by
    refine hsorted.imp_of_mem ?_
    intro a b ha hb hr
    rw [hinv a ha, hinv b hb]
    exact hr
  unfold rankLandmarks
  rw [List.pairwise_map]
  exact hp.sublist (List.take_sublist _ _)

lemma rankLandmarks_length (loc : Location) (places : List Place) :
    (rankLandmarks loc places).length = min 5 (buildScored loc places).length := by
  unfold rankLandmarks
  rw [List.length_map, List.length_take, List.length_insertionSort]
  rcases lt_or_ge (buildScored loc places).length 5 with h | h
  · rw [if_pos h]
    omega
  · rw [if_neg (not_lt.mpr h)]

lemma getNearby_ok_shape {pinCode city address : String} {radius : ℝ}
    {geoAddress geoPin geoLoc : Except String (List GeocodingResult)}
    {nearby : Except String (List Place)} {resp : LandmarksResponse}
    (h : GetNearbyLandmarks pinCode city address radius geoAddress geoPin geoLoc nearby
          = .ok resp) :
    (resp.success = false ∧ resp.landmarks = []) ∨
    ∃ (loc : Location) (la : String) (places : List Place),
      nearby = .ok places ∧
      resp = { success := true,
               message :=
                 if (rankLandmarks loc places).length = 0 then noLandmarksMsg
                 else "Found " ++ toString (rankLandmarks loc places).length ++
                   " landmarks near " ++ la,
               landmarks := rankLandmarks loc places,
               location := ⟨loc.lat, loc.lng⟩ } := by
  unfold GetNearbyLandmarks at h
  by_cases h1 : address ≠ ""
  · rw [if_pos h1] at h
    cases geoAddress with
    | error e => exact absurd h (by simp)
    | ok rs =>
      cases rs with
      | nil =>
        left
        obtain rfl := (Except.ok.injEq _ _).mp h.symm
        exact ⟨rfl, rfl⟩
      | cons r0 rest =>
        right
        unfold landmarksFrom at h
        cases nearby with
        | error e => exact absurd h (by simp)
        | ok places =>
          refine ⟨r0.location, r0.formattedAddress, places, rfl, ?_⟩
          exact ((Except.ok.injEq _ _).mp h).symm
  · rw [if_neg h1] at h
    by_cases h2 : pinCode ≠ "" ∧ city ≠ ""
    · rw [if_pos h2] at h
      cases hv : ValidatePinCodeWithCity pinCode city geoPin with
      | error e => rw [hv] at h; exact absurd h (by simp)
      | ok v =>
        rw [hv] at h
        dsimp only at h
        by_cases h3 : v.valid = false
        · rw [if_pos h3] at h
          left
          obtain rfl := (Except.ok.injEq _ _).mp h.symm
          exact ⟨rfl, rfl⟩
        · rw [if_neg h3] at h
          cases geoLoc with
          | error e => exact absurd h (by simp)
          | ok rs =>
            cases rs with
            | nil =>
              left
              obtain rfl := (Except.ok.injEq _ _).mp h.symm
              exact ⟨rfl, rfl⟩
            | cons r0 rest =>
              right
              unfold landmarksFrom at h
              cases nearby with
              | error e => exact absurd h (by simp)
              | ok places =>
                refine ⟨r0.location, r0.formattedAddress, places, rfl, ?_⟩
                exact ((Except.ok.injEq _ _).mp h).symm
    · rw [if_neg h2] at h
      left
      obtain rfl := (Except.ok.injEq _ _).mp h.symm
      exact ⟨rfl, rfl⟩

/-- Witness for C4 at concrete inputs. -/
theorem popScore_monotone_witness :
    popScore 3 5 100 ≤ popScore 4 5 100
  ∧ popScore 4 5 100 ≤ popScore 4 9 100
  ∧ popScore 4 9 200 ≤ popScore 4 9 100 :=
  ⟨popScore_monotone.1 3 4 5 100 (by norm_num) (by norm_num) (by norm_num)
      (by norm_num) (by norm_num),
   popScore_monotone.2.1 4 5 9 100 (by norm_num) (by norm_num) (by norm_num)
      (by norm_num),
   popScore_monotone.2.2 4 9 100 200 (by norm_num) (by norm_num) (by norm_num)
      (by norm_num)⟩

/-- C1: every landmark in a successful `GetNearbyLandmarks` response has
distance at least 10 meters from the resolved location and a non-zero
review count; closer or review-less candidates are discarded before
scoring (see `buildScored`). -/
theorem output_excludes_near_and_unreviewed
    (pinCode city address : String) (radius : ℝ)
    (geoAddress geoPin geoLoc : Except String (List GeocodingResult))
    (nearby : Except String (List Place)) (resp : LandmarksResponse) (l : Landmark)
    (h : GetNearbyLandmarks pinCode city address radius geoAddress geoPin geoLoc nearby
          = .ok resp)
    (hl : l ∈ resp.landmarks) :
    10 ≤ l.distance ∧ l.userRatings ≠ 0 := by
  rcases getNearby_ok_shape h with ⟨_, hemp⟩ | ⟨loc, la, places, _, hresp⟩
  · rw [hemp] at hl
    simp at hl
  · subst hresp
    obtain ⟨h1, h2, _⟩ := mem_rankLandmarks hl
    exact ⟨h1, h2⟩

/-- C3: every landmark in a successful `GetNearbyLandmarks` response carries
the popularity score `rating * log10(userRatings + 1) / (1 + distance/1000)`
computed from its own rating, review count and distance. -/
theorem output_popscore_formula
    (pinCode city address : String) (radius : ℝ)
    (geoAddress geoPin geoLoc : Except String (List GeocodingResult))
    (nearby : Except String (List Place)) (resp : LandmarksResponse) (l : Landmark)
    (h : GetNearbyLandmarks pinCode city address radius geoAddress geoPin geoLoc nearby
          = .ok resp)
    (hl : l ∈ resp.landmarks) :
    l.popScore = l.rating * Real.logb 10 ((l.userRatings : ℝ) + 1) / (1 + l.distance / 1000) := by
  rcases getNearby_ok_shape h with ⟨_, hemp⟩ | ⟨loc, la, places, _, hresp⟩
  · rw [hemp] at hl
    simp at hl
  · subst hresp
    exact (mem_rankLandmarks hl).2.2

/-- C2: the landmark list built by `GetNearbyLandmarks` from the raw
candidates (`rankLandmarks`, main.go lines 261-323) has length exactly
`min 5 (number of surviving candidates)` and is ordered by non-increasing
popularity score; consequently every successful response holds at most 5
landmarks, in non-increasing score order. -/
theorem output_top5_sorted :
    (∀ (loc : Location) (places : List Place),
        (rankLandmarks loc places).length = min 5 (buildScored loc places).length
      ∧ (rankLandmarks loc places).Pairwise (fun a b => b.popScore ≤ a.popScore))
  ∧ (∀ (pinCode city address : String) (radius : ℝ)
      (geoAddress geoPin geoLoc : Except String (List GeocodingResult))
      (nearby : Except String (List Place)) (resp : LandmarksResponse),
      GetNearbyLandmarks pinCode city address radius geoAddress geoPin geoLoc nearby
          = .ok resp →
      resp.landmarks.length ≤ 5
      ∧ resp.landmarks.Pairwise (fun a b => b.popScore ≤ a.popScore)) := by
  constructor
  · intro loc places
    exact ⟨rankLandmarks_length loc places, rankLandmarks_sorted loc places⟩
  · intro pinCode city address radius geoAddress geoPin geoLoc nearby resp h
    rcases getNearby_ok_shape h with ⟨_, hemp⟩ | ⟨loc, la, places, _, hresp⟩
    · rw [hemp]
      simp
    · subst hresp
      constructor
      · have := rankLandmarks_length loc places
        simp only [LandmarksResponse.landmarks] at *
        omega
      · exact rankLandmarks_sorted loc places

lemma latW_rad : latW * (3.14159265359 / 180) = Real.pi := by
  unfold latW
  have h : (3.14159265359 : ℝ) ≠ 0 := by norm_num
  field_simp

lemma dW_eq : dW = 6371000 * Real.pi := by
  unfold dW
  simp only [calculateDistance]
  have h1 : (latW - 0) * (3.14159265359 / 180) = Real.pi := by
    rw [sub_zero]
    exact latW_rad
  have h2 : ((0 : ℝ) - 0) * (3.14159265359 / 180) / 2 = 0 := by norm_num
  rw [h1, h2, Real.sin_zero]
  rw [Real.sin_pi_div_two]
  have h3 : (1 : ℝ) * 1 +
      Real.cos (0 * (3.14159265359 / 180)) * Real.cos (latW * (3.14159265359 / 180)) * 0 * 0
      = 1 := by ring
  rw [h3]
  rw [show (1 : ℝ) - 1 = 0 by norm_num, Real.sqrt_zero, Real.sqrt_one]
  have h4 : atan2 1 0 = Real.pi / 2 := by
    unfold atan2
    rw [if_neg (lt_irrefl 0), if_neg (lt_irrefl 0), if_pos one_pos]
  rw [h4]
  ring

lemma ten_le_dW : (10 : ℝ) ≤ dW := by
  rw [dW_eq]
  nlinarith [Real.pi_gt_three]

lemma buildScored_W : buildScored ⟨0, 0⟩ [placeW] = [(lmW, popScore 4 7 dW)] := by
  have hd : ¬(calculateDistance 0 0 latW 0 < 10 ∨ (7 : ℤ) = 0) := by
    push_neg
    exact ⟨ten_le_dW, by norm_num⟩
  simp only [buildScored, placeW]
  rw [if_neg hd]
  rfl

lemma rankLandmarks_W : rankLandmarks ⟨0, 0⟩ [placeW] = [lmW] := by
  unfold rankLandmarks
  rw [buildScored_W]
  simp

lemma getNearby_W (geoPin geoLoc : Except String (List GeocodingResult)) :
    GetNearbyLandmarks "" "" "addr" 0 (.ok [⟨"fa", [], ⟨0, 0⟩⟩]) geoPin geoLoc (.ok [placeW])
      = .ok ⟨true, "Found 1 landmarks near fa", [lmW], ⟨0, 0⟩⟩ := by
  unfold GetNearbyLandmarks
  rw [if_pos (by decide : ("addr" : String) ≠ "")]
  dsimp only
  unfold landmarksFrom
  dsimp only
  rw [rankLandmarks_W]
  rfl

/-- Witness for C1: the concrete candidate `placeW` (7 reviews, about
20,015 km away) survives filtering and appears in the output with distance
at least 10 and non-zero review count. -/
theorem output_excludes_near_and_unreviewed_witness :
    10 ≤ lmW.distance ∧ lmW.userRatings ≠ 0 :=
  output_excludes_near_and_unreviewed "" "" "addr" 0 (.ok [⟨"fa", [], ⟨0, 0⟩⟩])
    (.ok []) (.ok []) (.ok [placeW])
    ⟨true, "Found 1 landmarks near fa", [lmW], ⟨0, 0⟩⟩ lmW
    (getNearby_W (.ok []) (.ok [])) (List.mem_singleton_self lmW)

/-- Witness for C3: the concrete output landmark `lmW` carries exactly the
popularity-score formula value. -/
theorem output_popscore_formula_witness :
    lmW.popScore =
      lmW.rating * Real.logb 10 ((lmW.userRatings : ℝ) + 1) / (1 + lmW.distance / 1000) :=
  output_popscore_formula "" "" "addr" 0 (.ok [⟨"fa", [], ⟨0, 0⟩⟩])
    (.ok []) (.ok []) (.ok [placeW])
    ⟨true, "Found 1 landmarks near fa", [lmW], ⟨0, 0⟩⟩ lmW
    (getNearby_W (.ok []) (.ok [])) (List.mem_singleton_self lmW)

/-- Witness for C2 on a concrete successful response. -/
theorem output_top5_sorted_witness :
    ([lmW] : List Landmark).length ≤ 5
    ∧ ([lmW] : List Landmark).Pairwise (fun a b => b.popScore ≤ a.popScore) :=
  output_top5_sorted.2 "" "" "addr" 0 (.ok [⟨"fa", [], ⟨0, 0⟩⟩]) (.ok []) (.ok [])
    (.ok [placeW]) ⟨true, "Found 1 landmarks near fa", [lmW], ⟨0, 0⟩⟩
    (getNearby_W (.ok []) (.ok []))

/-- C9: a successful `GetNearbyLandmarks` response whose landmark list is
empty carries the descriptive "no landmarks found, try a larger radius"
message rather than no explanation. -/
theorem no_landmarks_message
    (pinCode city address : String) (radius : ℝ)
    (geoAddress geoPin geoLoc : Except String (List GeocodingResult))
    (nearby : Except String (List Place)) (resp : LandmarksResponse)
    (h : GetNearbyLandmarks pinCode city address radius geoAddress geoPin geoLoc nearby
          = .ok resp)
    (hs : resp.success = true) (he : resp.landmarks = []) :
    resp.message = noLandmarksMsg := by
  rcases getNearby_ok_shape h with ⟨hf, _⟩ | ⟨loc, la, places, _, hresp⟩
  · rw [hf] at hs
    simp at hs
  · subst hresp
    dsimp only at he ⊢
    rw [he]
    simp

lemma getNearby_empty (geoPin geoLoc : Except String (List GeocodingResult)) :
    GetNearbyLandmarks "" "" "addr" 0 (.ok [⟨"fa", [], ⟨1, 2⟩⟩]) geoPin geoLoc (.ok [])
      = .ok ⟨true, noLandmarksMsg, [], ⟨1, 2⟩⟩ := by
  unfold GetNearbyLandmarks
  rw [if_pos (by decide : ("addr" : String) ≠ "")]
  dsimp only
  unfold landmarksFrom
  dsimp only
  rfl

/-- Witness for C9 on a concrete run with zero surviving candidates. -/
theorem no_landmarks_message_witness :
    (⟨true, noLandmarksMsg, [], ⟨1, 2⟩⟩ : LandmarksResponse).message = noLandmarksMsg :=
  no_landmarks_message "" "" "addr" 0 (.ok [⟨"fa", [], ⟨1, 2⟩⟩]) (.ok []) (.ok []) (.ok [])
    ⟨true, noLandmarksMsg, [], ⟨1, 2⟩⟩ (getNearby_empty (.ok []) (.ok [])) rfl rfl

/-- C8: in postal-code mode (no address, PIN code and city both non-empty)
`GetNearbyLandmarks` runs the validator first.  If the validation is
invalid it returns the soft failure `Success = false` carrying the
validation message — the conclusion does not depend on `geoLoc` or
`nearby`, i.e. no further geocoding and no nearby search can influence the
outcome.  A validator (geocoding) error propagates unchanged as a hard
error. -/
theorem pin_mode_invalid_short_circuit :
    (∀ (pinCode city : String) (radius : ℝ)
       (geoAddress geoPin geoLoc : Except String (List GeocodingResult))
       (nearby : Except String (List Place)) (v : ValidationResponse),
       pinCode ≠ "" → city ≠ "" →
       ValidatePinCodeWithCity pinCode city geoPin = .ok v → v.valid = false →
       GetNearbyLandmarks pinCode city "" radius geoAddress geoPin geoLoc nearby
         = .ok ⟨false, v.message, [], ⟨0, 0⟩⟩)
  ∧ (∀ (pinCode city : String) (radius : ℝ)
       (geoAddress geoPin geoLoc : Except String (List GeocodingResult))
       (nearby : Except String (List Place)) (e : String),
       pinCode ≠ "" → city ≠ "" →
       ValidatePinCodeWithCity pinCode city geoPin = .error e →
       GetNearbyLandmarks pinCode city "" radius geoAddress geoPin geoLoc nearby
         = .error e) := by
  constructor
  · intro pinCode city radius geoAddress geoPin geoLoc nearby v hp hc hval hinv
    unfold GetNearbyLandmarks
    rw [if_neg (by simp : ¬("" : String) ≠ "")]
    rw [if_pos ⟨hp, hc⟩]
    rw [hval]
    dsimp only
    rw [if_pos hinv]
  · intro pinCode city radius geoAddress geoPin geoLoc nearby e hp hc hval
    unfold GetNearbyLandmarks
    rw [if_neg (by simp : ¬("" : String) ≠ "")]
    rw [if_pos ⟨hp, hc⟩]
    rw [hval]

/-- Witness for C8: a concrete invalid validation (geocoding found nothing
for the PIN) short-circuits, and a concrete geocoding error propagates. -/
theorem pin_mode_invalid_short_circuit_witness :
    GetNearbyLandmarks "208001" "Delhi" "" 0 (.ok []) (.ok []) (.ok []) (.ok [])
      = .ok ⟨false, "Invalid PIN code: No location found", [], ⟨0, 0⟩⟩
  ∧ GetNearbyLandmarks "208001" "Delhi" "" 0 (.ok []) (.error "boom") (.ok []) (.ok [])
      = .error "geocoding failed: boom" :=
  ⟨pin_mode_invalid_short_circuit.1 "208001" "Delhi" 0 (.ok []) (.ok []) (.ok []) (.ok [])
      ⟨false, "Invalid PIN code: No location found", [], none⟩
      (by decide) (by decide) rfl rfl,
   pin_mode_invalid_short_circuit.2 "208001" "Delhi" 0 (.ok []) (.error "boom") (.ok [])
      (.ok []) "geocoding failed: boom" (by decide) (by decide) rfl⟩

lemma validateLoop_no_match (claimed pinCode : String) :
    ∀ (rs : List GeocodingResult) (s : ExtractState) (fa : String),
      (∀ k, k < rs.length →
        cityMatch (extractAll s (rs.take (k + 1))).city claimed = false) →
      validateLoop claimed pinCode s fa rs =
        { valid := false
          message := "PIN code " ++ pinCode ++ " does not belong to " ++ claimed
          suggestions := if (extractAll s rs).city = "" then []
                         else [(extractAll s rs).city]
          details := some ⟨pinCode, (extractAll s rs).city, (extractAll s rs).state,
            (extractAll s rs).country, lastFA fa rs⟩ } := by
  intro rs
  induction rs with
  | nil =>
    intro s fa _
    rfl
  | cons r rest ih =>
    intro s fa h
    have h0 : cityMatch (applyResult s r).city claimed = false := by
      have := h 0 (by simp)
      simpa [extractAll] using this
    simp only [validateLoop]
    rw [if_neg (by simp [h0])]
    have hshift : ∀ k, k < rest.length →
        cityMatch (extractAll (applyResult s r) (rest.take (k + 1))).city claimed = false := by
      intro k hk
      have := h (k + 1) (by simpa using Nat.succ_lt_succ hk)
      simpa [extractAll, List.take_succ_cons] using this
    rw [ih (applyResult s r) r.formattedAddress hshift]
    rfl

/-- C7: when geocoding returns results but no result's extracted city
satisfies the bidirectional substring match, `ValidatePinCodeWithCity`
returns `valid = false` with the extracted city seen at the end of the scan
as a one-element suggestion list, and an empty suggestion list when no city
was ever extracted. -/
theorem validate_mismatch_suggestions
    (pinCode city : String) (rs : List GeocodingResult)
    (hp : strTrim pinCode ≠ "") (hc : strToLower (strTrim city) ≠ "")
    (hne : rs ≠ [])
    (hnm : ∀ k, k < rs.length →
      cityMatch (extractAll ⟨"", "", ""⟩ (rs.take (k + 1))).city
        (strToLower (strTrim city)) = false) :
    ValidatePinCodeWithCity pinCode city (.ok rs) =
      .ok { valid := false
            message := "PIN code " ++ strTrim pinCode ++ " does not belong to " ++
              strToLower (strTrim city)
            suggestions := if (extractAll ⟨"", "", ""⟩ rs).city = "" then []
                           else [(extractAll ⟨"", "", ""⟩ rs).city]
            details := some ⟨strTrim pinCode, (extractAll ⟨"", "", ""⟩ rs).city,
              (extractAll ⟨"", "", ""⟩ rs).state, (extractAll ⟨"", "", ""⟩ rs).country,
              lastFA "" rs⟩ } := by
  unfold ValidatePinCodeWithCity
  rw [if_neg (by push_neg; exact ⟨hp, hc⟩)]
  dsimp only
  rw [if_neg (by simp [hne])]
  rw [validateLoop_no_match (strToLower (strTrim city)) (strTrim pinCode) rs ⟨"", "", ""⟩ "" hnm]

/-- Witness for C7: PIN 208001 geocodes to locality "Kanpur" yet the user
claims "Delhi"; the result is invalid with suggestion list `["kanpur"]`. -/
theorem validate_mismatch_suggestions_witness :
    ValidatePinCodeWithCity "208001" "Delhi"
        (.ok [⟨"fa", [⟨"Kanpur", ["locality"]⟩], ⟨0, 0⟩⟩])
      = .ok ⟨false, "PIN code 208001 does not belong to delhi", ["kanpur"],
             some ⟨"208001", "kanpur", "", "", "fa"⟩⟩ := by
  have h := validate_mismatch_suggestions "208001" "Delhi"
    [⟨"fa", [⟨"Kanpur", ["locality"]⟩], ⟨0, 0⟩⟩]
    (by decide) (by decide) (by simp)
    (by
      intro k hk
      have hk1 : k = 0 := by simpa [Nat.lt_one_iff] using hk
      subst hk1
      decide)
  rw [h]
  rfl

lemma subListOf_nil (l : List Char) : subListOf [] l = true := by
  cases l <;> simp [subListOf, List.isEmpty]

lemma applyType_city_of_not_tag {s : ExtractState} {n t : String}
    (h : ¬(t = "locality" ∨ t = "administrative_area_level_2")) :
    (applyType s n t).city = s.city := by
  unfold applyType
  rw [if_neg h]
  split_ifs <;> rfl

lemma foldl_applyType_city (n : String) :
    ∀ (l : List String) (s : ExtractState),
      (∀ t ∈ l, ¬(t = "locality" ∨ t = "administrative_area_level_2")) →
      (l.foldl (fun acc t => applyType acc n t) s).city = s.city := by
  intro l
  induction l with
  | nil => intro s _; rfl
  | cons t ts ih =>
    intro s h
    rw [List.foldl_cons]
    rw [ih (applyType s n t) (fun u hu => h u (List.mem_cons_of_mem _ hu))]
    exact applyType_city_of_not_tag (h t (List.mem_cons_self _ _))

lemma foldl_applyComponent_city :
    ∀ (cs : List AddressComponent) (s : ExtractState),
      (∀ comp ∈ cs, ∀ t ∈ comp.types,
        ¬(t = "locality" ∨ t = "administrative_area_level_2")) →
      (cs.foldl applyComponent s).city = s.city := by
  intro cs
  induction cs with
  | nil => intro s _; rfl
  | cons c cs ih =>
    intro s h
    rw [List.foldl_cons]
    rw [ih (applyComponent s c) (fun u hu => h u (List.mem_cons_of_mem _ hu))]
    exact foldl_applyType_city c.longName c.types s (h c (List.mem_cons_self _ _))

lemma applyResult_city_of_no_tags {r : GeocodingResult} (s : ExtractState)
    (h : ∀ comp ∈ r.addressComponents, ∀ t ∈ comp.types,
      ¬(t = "locality" ∨ t = "administrative_area_level_2")) :
    (applyResult s r).city = s.city :=
  foldl_applyComponent_city r.addressComponents s h

/-- C10: when the first geocoding result carries no "locality" and no
"administrative_area_level_2" component, the extracted city stays `""` and
the bidirectional substring check is satisfied vacuously (the empty string
is a substring of every city), so `ValidatePinCodeWithCity` answers
`valid = true` with `Details.City = ""` for any claimed city that survives
trimming. -/
theorem validate_vacuous_empty_city
    (pinCode city : String) (r : GeocodingResult) (rest : List GeocodingResult)
    (hp : strTrim pinCode ≠ "") (hc : strToLower (strTrim city) ≠ "")
    (hnone : ∀ comp ∈ r.addressComponents, ∀ t ∈ comp.types,
      ¬(t = "locality" ∨ t = "administrative_area_level_2")) :
    ValidatePinCodeWithCity pinCode city (.ok (r :: rest)) =
      .ok { valid := true
            message := "PIN code and city match successfully"
            suggestions := []
            details := some ⟨strTrim pinCode, "", (applyResult ⟨"", "", ""⟩ r).state,
              (applyResult ⟨"", "", ""⟩ r).country, r.formattedAddress⟩ } := by
  have hcity : (applyResult ⟨"", "", ""⟩ r).city = "" := applyResult_city_of_no_tags _ hnone
  unfold ValidatePinCodeWithCity
  rw [if_neg (by push_neg; exact ⟨hp, hc⟩)]
  dsimp only
  rw [if_neg (by simp)]
  simp only [validateLoop]
  rw [hcity]
  have hm : cityMatch "" (strToLower (strTrim city)) = true := by
    unfold cityMatch strContains
    have h2 : subListOf (("" : String).data) (strToLower (strTrim city)).data = true := by
      have : ("" : String).data = [] := rfl
      rw [this]
      exact subListOf_nil _
    simp [h2]
  rw [if_pos hm]

/-- Witness for C10: a first result carrying only a state component yields
`valid = true` with an empty extracted city. -/
theorem validate_vacuous_empty_city_witness :
    ValidatePinCodeWithCity "208001" "Delhi"
        (.ok [⟨"fa", [⟨"Uttar Pradesh", ["administrative_area_level_1"]⟩], ⟨0, 0⟩⟩])
      = .ok ⟨true, "PIN code and city match successfully", [],
             some ⟨"208001", "", "Uttar Pradesh", "", "fa"⟩⟩ := by
  have h := validate_vacuous_empty_city "208001" "Delhi"
    ⟨"fa", [⟨"Uttar Pradesh", ["administrative_area_level_1"]⟩], ⟨0, 0⟩⟩ []
    (by decide) (by decide) (by decide)
  rw [h]
  rfl

/-- Counterexample for C6: a single geocoding result with two
"administrative_area_level_1" components "A" then "B" followed by a
matching locality.  The code's unconditional overwrite keeps the LAST state
component "B", while the claim's first-match-wins rule would keep "A". -/
theorem extraction_not_first_match :
    ValidatePinCodeWithCity "1" "zzz"
        (.ok [⟨"fa", [⟨"A", ["administrative_area_level_1"]⟩,
                      ⟨"B", ["administrative_area_level_1"]⟩,
                      ⟨"zzz", ["locality"]⟩], ⟨0, 0⟩⟩])
      = .ok ⟨true, "PIN code and city match successfully", [],
             some ⟨"1", "zzz", "B", "", "fa"⟩⟩
  ∧ ("B" : String) ≠ "A" :=
  ⟨rfl, by decide⟩

lemma applyComponent_eq_foldl_pairs (s : ExtractState) (c : AddressComponent) :
    applyComponent s c = (componentPairs c).foldl updPair s := by
  unfold applyComponent componentPairs
  rw [List.foldl_map]
  rfl

lemma applyResult_eq_foldl_pairs (s : ExtractState) (r : GeocodingResult) :
    applyResult s r = (resultPairs r).foldl updPair s := by
  unfold applyResult resultPairs
  rw [List.foldl_flatten, List.foldl_map]
  have h : applyComponent = fun (b : ExtractState) (c : AddressComponent) =>
      (componentPairs c).foldl updPair b :=
    funext fun b => funext fun c => applyComponent_eq_foldl_pairs b c
  rw [h]

lemma extractAll_eq_foldl_pairs (s : ExtractState) (rs : List GeocodingResult) :
    extractAll s rs = (typePairs rs).foldl updPair s := by
  unfold extractAll typePairs
  rw [List.foldl_flatten, List.foldl_map]
  have h : applyResult = fun (b : ExtractState) (r : GeocodingResult) =>
      (resultPairs r).foldl updPair b :=
    funext fun b => funext fun r => applyResult_eq_foldl_pairs b r
  rw [h]

lemma updPair_state (s : ExtractState) (p : String × String) :
    (updPair s p).state = if p.1 = "administrative_area_level_1" then p.2 else s.state := by
  unfold updPair applyType
  by_cases h1 : p.1 = "locality" ∨ p.1 = "administrative_area_level_2"
  · rw [if_pos h1]
    have hne : ¬p.1 = "administrative_area_level_1" := by
      rcases h1 with h | h <;> rw [h] <;> decide
    rw [if_neg hne]
    split_ifs <;> rfl
  · rw [if_neg h1]
    by_cases h2 : p.1 = "administrative_area_level_1"
    · rw [if_pos h2, if_pos h2]
    · rw [if_neg h2, if_neg h2]
      by_cases h3 : p.1 = "country"
      · rw [if_pos h3]
      · rw [if_neg h3]

lemma updPair_country (s : ExtractState) (p : String × String) :
    (updPair s p).country = if p.1 = "country" then p.2 else s.country := by
  unfold updPair applyType
  by_cases h1 : p.1 = "locality" ∨ p.1 = "administrative_area_level_2"
  · rw [if_pos h1]
    have hne : ¬p.1 = "country" := by
      rcases h1 with h | h <;> rw [h] <;> decide
    rw [if_neg hne]
    split_ifs <;> rfl
  · rw [if_neg h1]
    by_cases h2 : p.1 = "administrative_area_level_1"
    · rw [if_pos h2]
      have hne : ¬p.1 = "country" := by rw [h2]; decide
      rw [if_neg hne]
    · rw [if_neg h2]
      by_cases h3 : p.1 = "country"
      · rw [if_pos h3, if_pos h3]
      · rw [if_neg h3, if_neg h3]

lemma updPair_city (s : ExtractState) (p : String × String) :
    (updPair s p).city =
      if (p.1 = "locality" ∨ p.1 = "administrative_area_level_2") ∧ s.city = ""
      then strToLower p.2 else s.city := by
  unfold updPair applyType
  by_cases h1 : p.1 = "locality" ∨ p.1 = "administrative_area_level_2"
  · rw [if_pos h1]
    by_cases h2 : s.city = ""
    · rw [if_pos h2, if_pos ⟨h1, h2⟩]
    · rw [if_neg h2, if_neg (fun hh => h2 hh.2)]
  · have hcond : ¬((p.1 = "locality" ∨ p.1 = "administrative_area_level_2") ∧
        s.city = "") := fun hh => h1 hh.1
    rw [if_neg h1, if_neg hcond]
    by_cases h2 : p.1 = "administrative_area_level_1"
    · rw [if_pos h2]
    · rw [if_neg h2]
      by_cases h3 : p.1 = "country"
      · rw [if_pos h3]
      · rw [if_neg h3]

lemma isCityTag_iff {t : String} :
    isCityTag t = true ↔ (t = "locality" ∨ t = "administrative_area_level_2") := by
  simp [isCityTag]

lemma foldl_updPair_state :
    ∀ (ps : List (String × String)) (s : ExtractState),
      (ps.foldl updPair s).state =
        (((ps.filter (fun p => p.1 == "administrative_area_level_1")).getLast?).map
          Prod.snd).getD s.state := by
  intro ps
  induction ps with
  | nil => intro s; rfl
  | cons p ps ih =>
    intro s
    rw [List.foldl_cons, ih (updPair s p), List.filter_cons]
    by_cases hp : p.1 = "administrative_area_level_1"
    · rw [if_pos (by simp [hp])]
      rw [updPair_state, if_pos hp]
      cases hfl : ps.filter (fun p => p.1 == "administrative_area_level_1") with
      | nil => rfl
      | cons q qs =>
        rw [List.getLast?_cons_cons]
        cases hgl : (q :: qs).getLast? with
        | none => exact absurd hgl (by simp)
        | some a => rfl
    · rw [if_neg (by simp [hp])]
      rw [updPair_state, if_neg hp]

lemma foldl_updPair_country :
    ∀ (ps : List (String × String)) (s : ExtractState),
      (ps.foldl updPair s).country =
        (((ps.filter (fun p => p.1 == "country")).getLast?).map Prod.snd).getD s.country := by
  intro ps
  induction ps with
  | nil => intro s; rfl
  | cons p ps ih =>
    intro s
    rw [List.foldl_cons, ih (updPair s p), List.filter_cons]
    by_cases hp : p.1 = "country"
    · rw [if_pos (by simp [hp])]
      rw [updPair_country, if_pos hp]
      cases hfl : ps.filter (fun p => p.1 == "country") with
      | nil => rfl
      | cons q qs =>
        rw [List.getLast?_cons_cons]
        cases hgl : (q :: qs).getLast? with
        | none => exact absurd hgl (by simp)
        | some a => rfl
    · rw [if_neg (by simp [hp])]
      rw [updPair_country, if_neg hp]

lemma foldl_updPair_city :
    ∀ (ps : List (String × String)) (s : ExtractState),
      (ps.foldl updPair s).city =
        if s.city = ""
        then (((ps.filter (fun p => isCityTag p.1 && (strToLower p.2 != ""))).head?).map
               (fun p => strToLower p.2)).getD ""
        else s.city := by
  intro ps
  induction ps with
  | nil =>
    intro s
    by_cases h : s.city = ""
    · rw [if_pos h]
      exact h
    · rw [if_neg h]
      rfl
  | cons p ps ih =>
    intro s
    rw [List.foldl_cons, ih (updPair s p), List.filter_cons]
    by_cases hs : s.city = ""
    · by_cases htag : p.1 = "locality" ∨ p.1 = "administrative_area_level_2"
      · have hct : isCityTag p.1 = true := isCityTag_iff.mpr htag
        by_cases hne : strToLower p.2 = ""
        · have hcond : ¬((isCityTag p.1 && (strToLower p.2 != "")) = true) := by
            simp [hne]
          have hup : (updPair s p).city = "" := by
            rw [updPair_city, if_pos ⟨htag, hs⟩]
            exact hne
          rw [if_neg hcond, hup, if_pos rfl, if_pos hs]
        · have hcond : (isCityTag p.1 && (strToLower p.2 != "")) = true := by
            simp [hct, bne_iff_ne, hne]
          have hup : (updPair s p).city = strToLower p.2 := by
            rw [updPair_city, if_pos ⟨htag, hs⟩]
          rw [if_pos hcond, hup, if_neg hne, if_pos hs]
          rfl
      · have hcond : ¬((isCityTag p.1 && (strToLower p.2 != "")) = true) := by
          simp only [Bool.and_eq_true]
          exact fun hh => htag (isCityTag_iff.mp hh.1)
        have hup : (updPair s p).city = s.city := by
          rw [updPair_city, if_neg (fun hh => htag hh.1)]
        rw [if_neg hcond, hup, if_pos hs]
    · have hup : (updPair s p).city = s.city := by
        rw [updPair_city, if_neg (fun hh => hs hh.2)]
      rw [hup, if_neg hs, if_neg hs]

/-- C6 amended: during validation the extraction state is carried across
the whole result scan.  The extracted state is the LAST
"administrative_area_level_1" component seen (later components overwrite
earlier ones), the extracted country is the LAST "country" component, and
the extracted city is the FIRST "locality"/"administrative_area_level_2"
component whose lowercased name is non-empty, scanned cumulatively over all
results (a city extracted from an earlier result is never replaced). -/
theorem extraction_first_city_last_state_country (s : ExtractState)
    (rs : List GeocodingResult) :
    (extractAll s rs).state =
      ((((typePairs rs).filter (fun p => p.1 == "administrative_area_level_1")).getLast?).map
        Prod.snd).getD s.state
  ∧ (extractAll s rs).country =
      ((((typePairs rs).filter (fun p => p.1 == "country")).getLast?).map Prod.snd).getD
        s.country
  ∧ (extractAll s rs).city =
      (if s.city = ""
       then ((((typePairs rs).filter
                (fun p => isCityTag p.1 && (strToLower p.2 != ""))).head?).map
              (fun p => strToLower p.2)).getD ""
       else s.city) := by
  rw [extractAll_eq_foldl_pairs]
  exact ⟨foldl_updPair_state _ _, foldl_updPair_country _ _, foldl_updPair_city _ _⟩
